import Mathlib

/-
  Verification of the DeepSpeed Windows patcher build orchestrator
  (src/builddeepspeed.py) against its natural-language specification.

  The Python source is shallowly embedded below.  Filesystem, registry and
  subprocess effects are modelled by explicit state values and environment
  records; every definition is traced to the source lines it embeds.
-/

/-- A filesystem entry as seen in a directory listing: a plain file, or a
directory with its own named children.  Directory listings are modelled as
association lists of (name, entry); a real listing never repeats a name. -/
inductive Entry where
  | file : Entry
  | dir : List (String × Entry) → Entry

/-- Whether an entry is a directory. -/
def Entry.isDir : Entry → Bool
  | Entry.file => false
  | Entry.dir _ => true

/-! ## Toolchain discovery (find_vs_installation, lines 248-286) -/

/-- The ambient system as probed by find_vs_installation:
`pathExists` models os.path.exists; `registryInstallDir` models opening an
HKLM key and reading its InstallDir value (none models the WindowsError
raised when the key or value is absent); `parentDir` models
Path(install_path).parent. -/
structure SystemEnv where
  pathExists : String → Bool
  registryInstallDir : String → Option String
  parentDir : String → String

/-- A discovered Visual Studio toolchain: the (vs_name, vs_path, vcvars_path)
triple returned by find_vs_installation. -/
structure VsProfile where
  name : String
  installRoot : String
  vcvarsPath : String
deriving DecidableEq

/-- Relative path of the environment-initialization script beneath an install
root, as joined by os.path.join in both search branches (lines 260, 278). -/
def vcvarsRel : String := "\\VC\\Auxiliary\\Build\\vcvars64.bat"

/-- The well-known install roots checked first (default_vs_paths, lines
251-256), in dict insertion order. -/
def default_vs_paths : List (String × String) :=
  [("VS2019 BuildTools", "C:\\Program Files (x86)\\Microsoft Visual Studio\\2019\\BuildTools"),
   ("VS2019 Community", "C:\\Program Files (x86)\\Microsoft Visual Studio\\2019\\Community"),
   ("VS2022 BuildTools", "C:\\Program Files\\Microsoft Visual Studio\\2022\\BuildTools"),
   ("VS2022 Community", "C:\\Program Files\\Microsoft Visual Studio\\2022\\Community")]

/-- The registry keys checked second (vs_reg_paths, lines 265-270), each with
its toolchain generation label. -/
def vs_reg_paths : List (String × String) :=
  [("SOFTWARE\\Microsoft\\VisualStudio\\Setup\\Community", "2022"),
   ("SOFTWARE\\Microsoft\\VisualStudio\\Setup\\BuildTools", "2022"),
   ("SOFTWARE\\WOW6432Node\\Microsoft\\VisualStudio\\Setup\\Community", "2019"),
   ("SOFTWARE\\WOW6432Node\\Microsoft\\VisualStudio\\Setup\\BuildTools", "2019")]

/-- Models the Python expression `"Community" in reg_path` (line 280): the
string splits into more than one piece on that substring exactly when the
substring occurs in it. -/
def regPathMentionsCommunity (regPath : String) : Bool :=
  decide (1 < (regPath.splitOn "Community").length)

/-- The loop over default_vs_paths (lines 259-262): return the first root
whose vcvars64.bat exists. -/
def findVsInDefaults (env : SystemEnv) : List (String × String) → Option VsProfile
  | [] => none
  | (vsName, vsPath) :: rest =>
      if env.pathExists (vsPath ++ vcvarsRel) then
        some ⟨vsName, vsPath, vsPath ++ vcvarsRel⟩
      else findVsInDefaults env rest

/-- The loop over vs_reg_paths (lines 272-284): read InstallDir under each
key (a WindowsError continues the loop), skip a falsy (empty) value, and
return the first whose parent directory holds vcvars64.bat. -/
def findVsInRegistry (env : SystemEnv) : List (String × String) → Option VsProfile
  | [] => none
  | (regPath, version) :: rest =>
      match env.registryInstallDir regPath with
      | none => findVsInRegistry env rest
      | some installPath =>
          if installPath = "" then findVsInRegistry env rest
          else
            if env.pathExists (env.parentDir installPath ++ vcvarsRel) then
              some ⟨"VS" ++ version ++ " " ++
                      (if regPathMentionsCommunity regPath then "Community" else "BuildTools"),
                    env.parentDir installPath,
                    env.parentDir installPath ++ vcvarsRel⟩
            else findVsInRegistry env rest

/-- find_vs_installation (lines 248-286): defaults first, then the registry;
none models the (None, None, None) NotFound return. -/
def find_vs_installation (env : SystemEnv) : Option VsProfile :=
  match findVsInDefaults env default_vs_paths with
  | some p => some p
  | none => findVsInRegistry env vs_reg_paths

/-- The full candidate list in priority order: well-known roots, then
registry keys. -/
inductive VsCandidate where
  | defaultPath (vsName vsPath : String)
  | registryKey (regPath version : String)

/-- All candidates probed by find_vs_installation, in its fixed priority
order. -/
def vsCandidates : List VsCandidate :=
  default_vs_paths.map (fun p => VsCandidate.defaultPath p.1 p.2) ++
  vs_reg_paths.map (fun p => VsCandidate.registryKey p.1 p.2)

/-- The profile a single candidate yields when its environment script exists
(for a registry candidate: key readable, InstallDir non-empty, script present
under its parent), and none otherwise. -/
def candidateProfile (env : SystemEnv) : VsCandidate → Option VsProfile
  | VsCandidate.defaultPath vsName vsPath =>
      if env.pathExists (vsPath ++ vcvarsRel) then
        some ⟨vsName, vsPath, vsPath ++ vcvarsRel⟩
      else none
  | VsCandidate.registryKey regPath version =>
      match env.registryInstallDir regPath with
      | none => none
      | some installPath =>
          if installPath = "" then none
          else if env.pathExists (env.parentDir installPath ++ vcvarsRel) then
            some ⟨"VS" ++ version ++ " " ++
                    (if regPathMentionsCommunity regPath then "Community" else "BuildTools"),
                  env.parentDir installPath,
                  env.parentDir installPath ++ vcvarsRel⟩
          else none

lemma findVsInDefaults_eq_findSome (env : SystemEnv) (l : List (String × String)) :
    findVsInDefaults env l =
      (l.map (fun p => VsCandidate.defaultPath p.1 p.2)).findSome? (candidateProfile env) := by
  induction l with
  | nil => rfl
  | cons hd tl ih =>
      obtain ⟨vsName, vsPath⟩ := hd
      by_cases h : env.pathExists (vsPath ++ vcvarsRel) = true
      · simp [findVsInDefaults, List.findSome?, candidateProfile, h]
      · simp only [Bool.not_eq_true] at h
        simp [findVsInDefaults, List.findSome?, candidateProfile, h, ih]

lemma findVsInRegistry_eq_findSome (env : SystemEnv) (l : List (String × String)) :
    findVsInRegistry env l =
      (l.map (fun p => VsCandidate.registryKey p.1 p.2)).findSome? (candidateProfile env) := by
  induction l with
  | nil => rfl
  | cons hd tl ih =>
      obtain ⟨regPath, version⟩ := hd
      cases hreg : env.registryInstallDir regPath with
      | none => simp [findVsInRegistry, List.findSome?, candidateProfile, hreg, ih]
      | some installPath =>
          by_cases hemp : installPath = ""
          · simp [findVsInRegistry, List.findSome?, candidateProfile, hreg, hemp, ih]
          · by_cases hex : env.pathExists (env.parentDir installPath ++ vcvarsRel) = true
            · simp [findVsInRegistry, List.findSome?, candidateProfile, hreg, hemp, hex]
            · simp only [Bool.not_eq_true] at hex
              simp [findVsInRegistry, List.findSome?, candidateProfile, hreg, hemp, hex, ih]

/-! ## Generated build script (run_build_process, lines 298-334) -/

/-- The GUI's build-option checkboxes (self.build_options, lines 180-188):
seven flags, every one defaulting to unchecked (false). -/
def gui_build_options : List (String × Bool) :=
  [("DS_BUILD_AIO", false),
   ("DS_BUILD_CUTLESS_OPS", false),
   ("DS_BUILD_EVOFORMER_ATTN", false),
   ("DS_BUILD_FP_QUANTIZER", false),
   ("DS_BUILD_RAGGED_DEVICE_OPS", false),
   ("DS_BUILD_SPARSE_ATTN", false),
   ("DS_BUILD_INFERENCE_CORE_OPS", false)]

/-- The lines of run_build.bat exactly as run_build_process writes them
(lines 301-334).  The method has self.build_options in scope, so the mapping
is passed in here, but the source never reads it when writing the script:
every DS_BUILD line is a hard-coded `=0`, so the result does not depend on
buildOptions at all. -/
def buildScriptLines (buildOptions : List (String × Bool))
    (vcvarsPath cudaVersion installDir pyExe : String) : List String :=
  let _ := buildOptions
  ["@echo off",
   "chcp 65001",
   "set PYTHONUTF8=1",
   "set PYTHONIOENCODING=utf-8",
   "call \"" ++ vcvarsPath ++ "\"",
   "set DS_BUILD_STRING=nogit",
   "set CUDA_PATH=C:\\Program Files\\NVIDIA GPU Computing Toolkit\\CUDA\\v" ++ cudaVersion,
   "set CUDA_HOME=%CUDA_PATH%",
   "set DISTUTILS_USE_SDK=1",
   "set DS_BUILD_AIO=0",
   "set DS_BUILD_CUTLASS_OPS=0",
   "set DS_BUILD_EVOFORMER_ATTN=0",
   "set DS_BUILD_FP_QUANTIZER=0",
   "set DS_BUILD_RAGGED_DEVICE_OPS=0",
   "set DS_BUILD_SPARSE_ATTN=0",
   "set DS_BUILD_TRANSFORMER_INFERENCE=0",
   "echo ============ Environment Variables ============",
   "echo CUDA_PATH=%CUDA_PATH%",
   "echo CUDA_HOME=%CUDA_HOME%",
   "echo PATH=%PATH%",
   "echo INCLUDE=%INCLUDE%",
   "echo Platform: %VSCMD_ARG_TGT_ARCH%",
   "echo ============================================",
   "cd /d \"" ++ installDir ++ "\"",
   "\"" ++ pyExe ++ "\" setup.py bdist_wheel",
   "if errorlevel 1 exit /b 1"]

/-! ## Build subprocess (run_build_process, lines 288-367) -/

/-- Observable outcome of run_build_process: `ok` is the Bool it returns;
`scriptOnDisk` is whether the transient run_build.bat still exists when it
returns. -/
structure BuildRunState where
  ok : Bool
  scriptOnDisk : Bool
deriving DecidableEq

/-- run_build_process (lines 288-367).  `vcvars` is the find_vs_installation
result; before the script is written, a missing toolchain raises and the
handler returns False (lines 293-294, 365-367).  A non-zero subprocess exit
raises "Build failed" (lines 354-355), which jumps straight to the handler:
the os.remove of the script (lines 357-361) runs only on the success path,
where a failing remove is swallowed (`removeRaises` models that best-effort
deletion failing). -/
def run_build_process (vcvars : Option VsProfile) (exitCode : Nat)
    (removeRaises : Bool) : BuildRunState :=
  match vcvars with
  | none => ⟨false, false⟩
  | some _ =>
      if exitCode ≠ 0 then ⟨false, true⟩
      else ⟨true, removeRaises⟩

/-! ## Wheel archiving (archive_wheel, lines 389-409) -/

/-- Result of archive_wheel: noWheel models the `return False` taken when
dist holds no .whl file (lines 393-395); archived w models copying a wheel
into the archive subdirectory and returning True (lines 398-406). -/
inductive ArchiveResult where
  | noWheel : ArchiveResult
  | archived : String → ArchiveResult
deriving DecidableEq

/-- archive_wheel (lines 389-409) applied to the dist/*.whl listing: with an
empty listing it returns False; otherwise it copies wheel_files[0] — the
first entry, however many there are — and returns True. -/
def archive_wheel (distWheels : List String) : ArchiveResult :=
  match distWheels with
  | [] => ArchiveResult.noWheel
  | w :: _ => ArchiveResult.archived w

/-! ## Source extraction (build_only lines 459-471, start_installation
lines 577-589; both copies are identical) -/

/-- The workspace just after shutil.unpack_archive: its listing apart from
the downloaded archive, and whether deepspeed.zip is (still) present.  The
download step has just written the zip, so entering extraction it is. -/
structure PostUnpackState where
  entries : List (String × Entry)
  zipPresent : Bool

/-- The extraction/normalization step (lines 462-471): the source computes
the fixed name `DeepSpeed-{version}` for the extracted directory, lists it
(os.listdir raises if it is absent or not a directory — modelled by none),
moves each child up into the workspace root, removes the then-empty
directory, and deletes the archive file.  A child whose name collides with a
surviving root entry would make shutil.move nest rather than replace; real
GitHub archives cannot produce that, and the model treats it as an error
state that no theorem below reaches. -/
def extractStep (version : String) (s : PostUnpackState) : Option PostUnpackState :=
  let name := "DeepSpeed-" ++ version
  match s.entries.find? (fun e => e.1 == name) with
  | some (_, Entry.dir children) =>
      let rest := s.entries.filter (fun e => !(e.1 == name))
      if children.any (fun c => rest.any (fun r => r.1 == c.1)) then none
      else if s.zipPresent then some ⟨rest ++ children, false⟩
      else none
  | some (_, Entry.file) => none
  | none => none

/-! ## Workspace reset (manage_build_directory, lines 369-387) -/

/-- The directories manage_build_directory touches: the sibling
deepspeed_wheels archive directory, and the build (workspace) directory,
whose listing is some l when the directory exists. -/
structure DirState where
  archiveDirExists : Bool
  workspace : Option (List (String × Entry))

/-- manage_build_directory (lines 369-387): os.makedirs(archive_dir,
exist_ok=True); shutil.rmtree of the workspace when it exists;
os.makedirs of the workspace — which would raise (none) if the directory
still existed at that point. -/
def manage_build_directory (s : DirState) : Option DirState :=
  let s1 : DirState := ⟨true, s.workspace⟩
  let s2 : DirState := if s1.workspace.isSome then ⟨s1.archiveDirExists, none⟩ else s1
  match s2.workspace with
  | none => some ⟨s2.archiveDirExists, some []⟩
  | some _ => none

lemma manage_build_directory_resets (s : DirState) :
    manage_build_directory s = some ⟨true, some []⟩ := by
  cases h : s.workspace <;> simp [manage_build_directory, h]

/-! ## Pipeline entry points (build_only lines 411-496,
start_installation lines 529-626) -/

/-- How one entry-point invocation ends.  versionError models the
"Please select a DeepSpeed version" message box followed by an immediate
return (lines 413-415, 531-533); declined models the user answering no to
the confirmation dialog; failed carries the message the outer handler
reports; succeeded records whether the wheel-archiving warning (lines
480-481, 598-599) was issued on the way. -/
inductive EntryOutcome where
  | versionError : EntryOutcome
  | declined : EntryOutcome
  | failed : String → EntryOutcome
  | succeeded : Bool → EntryOutcome
deriving DecidableEq

/-- The external world one pipeline run interacts with, fixed for the run:
the user's answer to the confirm dialog, whether the download succeeds
(requests.get + raise_for_status), the workspace listing that
shutil.unpack_archive produces, the toolchain search result, the build
subprocess exit code, whether deleting the transient script raises, the
dist/*.whl listing after the build, and whether pip install succeeds. -/
structure BuildWorld where
  confirm : Bool
  downloadOk : Bool
  unpackedEntries : List (String × Entry)
  vcvars : Option VsProfile
  buildExitCode : Nat
  removeRaises : Bool
  distWheels : List String
  pipInstallOk : Bool

/-- One entry point's result: the outcome, the directory state it leaves
(workspace contents during a run are carried by BuildWorld, so DirState
tracks only existence and emptiness at the reset boundary), and the stages
that ran. -/
structure PipelineResult where
  outcome : EntryOutcome
  finalState : DirState
  stagesRun : List String

/-- build_only (lines 411-496).  An empty version (falsy in the source)
returns before anything else; a declined confirm dialog returns; then
manage_build_directory, the download, the extraction, run_build_process and
archive_wheel run in order, each failure raising into the outer handler.  A
False from archive_wheel only logs a warning (lines 480-481): the run still
ends in the success branch (lines 483-491). -/
def build_only (version : String) (w : BuildWorld) (s : DirState) : PipelineResult :=
  if version = "" then ⟨EntryOutcome.versionError, s, []⟩
  else if w.confirm = false then ⟨EntryOutcome.declined, s, []⟩
  else
    match manage_build_directory s with
    | none => ⟨EntryOutcome.failed "Failed to prepare build directory", s, ["reset"]⟩
    | some s1 =>
        if w.downloadOk = false then
          ⟨EntryOutcome.failed "download error", s1, ["reset", "download"]⟩
        else
          match extractStep version ⟨w.unpackedEntries, true⟩ with
          | none => ⟨EntryOutcome.failed "extract error", s1, ["reset", "download", "extract"]⟩
          | some _ =>
              let br := run_build_process w.vcvars w.buildExitCode w.removeRaises
              if br.ok = false then
                ⟨EntryOutcome.failed "Build failed", s1, ["reset", "download", "extract", "build"]⟩
              else
                match archive_wheel w.distWheels with
                | ArchiveResult.noWheel =>
                    ⟨EntryOutcome.succeeded true, s1,
                     ["reset", "download", "extract", "build", "archive"]⟩
                | ArchiveResult.archived _ =>
                    ⟨EntryOutcome.succeeded false, s1,
                     ["reset", "download", "extract", "build", "archive"]⟩

/-- start_installation (lines 529-626): identical to build_only through the
archive step, then it lists dist/*.whl again — an empty listing raises
"No wheel file found after build" (lines 605-608) — and pip-installs
wheel_files[0], a failure there raising into the outer handler. -/
def start_installation (version : String) (w : BuildWorld) (s : DirState) : PipelineResult :=
  if version = "" then ⟨EntryOutcome.versionError, s, []⟩
  else if w.confirm = false then ⟨EntryOutcome.declined, s, []⟩
  else
    match manage_build_directory s with
    | none => ⟨EntryOutcome.failed "Failed to prepare build directory", s, ["reset"]⟩
    | some s1 =>
        if w.downloadOk = false then
          ⟨EntryOutcome.failed "download error", s1, ["reset", "download"]⟩
        else
          match extractStep version ⟨w.unpackedEntries, true⟩ with
          | none => ⟨EntryOutcome.failed "extract error", s1, ["reset", "download", "extract"]⟩
          | some _ =>
              let br := run_build_process w.vcvars w.buildExitCode w.removeRaises
              if br.ok = false then
                ⟨EntryOutcome.failed "Build failed", s1, ["reset", "download", "extract", "build"]⟩
              else
                let warned := archive_wheel w.distWheels = ArchiveResult.noWheel
                match w.distWheels with
                | [] =>
                    ⟨EntryOutcome.failed "No wheel file found after build", s1,
                     ["reset", "download", "extract", "build", "archive", "install"]⟩
                | _ :: _ =>
                    if w.pipInstallOk then
                      ⟨EntryOutcome.succeeded warned, s1,
                       ["reset", "download", "extract", "build", "archive", "install"]⟩
                    else
                      ⟨EntryOutcome.failed "Installation failed", s1,
                       ["reset", "download", "extract", "build", "archive", "install"]⟩

/-! ## Prerequisite checking (check_prerequisites, lines 628-735) -/

/-- One logged prerequisite finding: what was checked and whether it was
satisfied. -/
structure Finding where
  subject : String
  satisfied : Bool
deriving DecidableEq

/-- The report check_prerequisites produces: the findings in the order the
source logs them, and the Bool it returns (prerequisites_met). -/
structure PrereqReport where
  findings : List Finding
  allSatisfied : Bool
deriving DecidableEq

/-- Everything check_prerequisites consults: the system probed by
find_vs_installation, the CUDA install root and its nvcc (lines 654-673),
whether importing torch works (lines 690-702), whether ninja/psutil resolve
via importlib.metadata, and whether the automatic pip install of a missing
one succeeds (lines 703-714). -/
structure PrereqEnv where
  sys : SystemEnv
  cudaDirExists : Bool
  nvccExists : Bool
  torchInstalled : Bool
  ninjaInstalled : Bool
  psutilInstalled : Bool
  pipInstallNinjaOk : Bool
  pipInstallPsutilOk : Bool

/-- The finding for one installable runtime package (lines 703-714): already
installed is satisfied; missing triggers one pip install attempt whose
success decides satisfaction. -/
def packageFinding (pkg : String) (installed pipOk : Bool) : Finding :=
  if installed then ⟨pkg, true⟩ else ⟨pkg, pipOk⟩

/-- check_prerequisites (lines 628-735).  Every block runs unconditionally —
prerequisites_met is only accumulated, never tested between blocks: the
Visual Studio check (638-649), the CUDA root and (when the root exists) the
nvcc check (652-677), then torch, ninja, psutil in dict order (680-721).
The torch CUDA-availability lines are logged but never affect
prerequisites_met, so they carry no finding here.  The returned Bool equals
the conjunction of all findings. -/
def check_prerequisites (env : PrereqEnv) : PrereqReport :=
  let vsF : Finding := ⟨"VisualStudio", (find_vs_installation env.sys).isSome⟩
  let cudaFs : List Finding :=
    if env.cudaDirExists then [⟨"CUDA", true⟩, ⟨"nvcc", env.nvccExists⟩]
    else [⟨"CUDA", false⟩]
  let fs := vsF :: cudaFs ++
    [⟨"torch", env.torchInstalled⟩,
     packageFinding "ninja" env.ninjaInstalled env.pipInstallNinjaOk,
     packageFinding "psutil" env.psutilInstalled env.pipInstallPsutilOk]
  ⟨fs, fs.all (fun f => f.satisfied)⟩

/-! ## Claim theorems -/

/-- Claim C1 (code bug): the claim — and the GUI's own checkboxes — say each
entry of the option-flag mapping drives the matching `set DS_BUILD_...` line
of the generated script, an enabled flag turning its line from 0 to 1.  The
source never reads build_options when writing the script: the script is
identical for every flag mapping, and with DS_BUILD_AIO enabled it still
contains the `=0` line and no `=1` line. -/
theorem buildScript_ignores_option_flags (opts : List (String × Bool)) :
    buildScriptLines opts "C:\\VS\\vcvars64.bat" "12.1" "C:\\ws" "python.exe"
      = buildScriptLines gui_build_options "C:\\VS\\vcvars64.bat" "12.1" "C:\\ws" "python.exe"
    ∧ (buildScriptLines (("DS_BUILD_AIO", true) :: opts) "C:\\VS\\vcvars64.bat" "12.1" "C:\\ws" "python.exe").contains
        "set DS_BUILD_AIO=0" = true
    ∧ (buildScriptLines (("DS_BUILD_AIO", true) :: opts) "C:\\VS\\vcvars64.bat" "12.1" "C:\\ws" "python.exe").contains
        "set DS_BUILD_AIO=1" = false :=
  ⟨rfl, rfl, rfl⟩

/-- Claim C2 counterexample: with the toolchain found and the subprocess
exiting 1, run_build_process returns failure but the transient script is
still on disk — the claimed unconditional deletion does not happen. -/
theorem buildScript_remains_after_failed_build :
    (run_build_process (some ⟨"VS2022 BuildTools", "C:\\VS", "C:\\VS\\vcvars64.bat"⟩) 1 false).ok
      = false
    ∧ (run_build_process (some ⟨"VS2022 BuildTools", "C:\\VS", "C:\\VS\\vcvars64.bat"⟩) 1 false).scriptOnDisk
      = true :=
  ⟨rfl, rfl⟩

/-- Claim C2 (amended): when the build subprocess exits with a non-zero
code, run_build_process returns failure and the transient script file
remains on disk: the raise at the returncode check skips the os.remove,
which runs (best-effort) only on the success path. -/
theorem run_build_failure_keeps_script (p : VsProfile) (exitCode : Nat)
    (removeRaises : Bool) (h : exitCode ≠ 0) :
    run_build_process (some p) exitCode removeRaises = ⟨false, true⟩ := by
  simp [run_build_process, h]

/-- Witness for run_build_failure_keeps_script at exit code 2. -/
theorem run_build_failure_keeps_script_concrete :
    run_build_process (some ⟨"VS2019 Community", "C:\\VS19", "C:\\VS19\\vcvars64.bat"⟩) 2 true
      = ⟨false, true⟩ :=
  run_build_failure_keeps_script
    ⟨"VS2019 Community", "C:\\VS19", "C:\\VS19\\vcvars64.bat"⟩ 2 true (by decide)

/-- Claim C3 counterexample: a build-only run whose subprocess succeeds but
whose dist listing is empty ends reported as a success (with only the
archive warning), not as the claimed fatal artifact error. -/
theorem build_only_reports_success_without_wheel :
    (build_only "0.15.2"
        ⟨true, true, [("DeepSpeed-0.15.2", Entry.dir [("setup.py", Entry.file)])],
         some ⟨"VS2022 Community", "C:\\VS", "C:\\VS\\vcvars64.bat"⟩, 0, false, [], true⟩
        ⟨false, none⟩).outcome
      = EntryOutcome.succeeded true :=
  rfl

/-- The concrete world used for the claim C3 scenario: everything up to the
dist scan succeeds and dist/*.whl is empty. -/
def wNoWheel : BuildWorld :=
  ⟨true, true, [("DeepSpeed-0.15.2", Entry.dir [("setup.py", Entry.file)])],
   some ⟨"VS2022 Community", "C:\\VS", "C:\\VS\\vcvars64.bat"⟩, 0, false, [], true⟩

/-- Claim C3 (amended): a successful build with an empty dist listing is
fatal ("No wheel file found after build") only in the build-and-install
entry point; the build-only entry point logs the archive warning and still
reports the run as successful. -/
theorem no_wheel_outcomes (version : String) (w : BuildWorld) (s : DirState)
    (p : VsProfile) (hv : ¬ version = "") (hc : w.confirm = true)
    (hd : w.downloadOk = true)
    (he : (extractStep version ⟨w.unpackedEntries, true⟩).isSome = true)
    (hvc : w.vcvars = some p) (hx : w.buildExitCode = 0)
    (hw : w.distWheels = []) :
    (build_only version w s).outcome = EntryOutcome.succeeded true
    ∧ (start_installation version w s).outcome
        = EntryOutcome.failed "No wheel file found after build" := by
  obtain ⟨ps, hps⟩ := Option.isSome_iff_exists.mp he
  constructor
  · simp [build_only, hv, hc, hd, manage_build_directory_resets, hps,
          run_build_process, hvc, hx, hw, archive_wheel]
  · simp [start_installation, hv, hc, hd, manage_build_directory_resets, hps,
          run_build_process, hvc, hx, hw, archive_wheel]

/-- Witness for no_wheel_outcomes at the concrete wNoWheel world. -/
theorem no_wheel_outcomes_concrete :
    (build_only "0.15.2" wNoWheel ⟨false, none⟩).outcome = EntryOutcome.succeeded true
    ∧ (start_installation "0.15.2" wNoWheel ⟨false, none⟩).outcome
        = EntryOutcome.failed "No wheel file found after build" :=
  no_wheel_outcomes "0.15.2" wNoWheel ⟨false, none⟩
    ⟨"VS2022 Community", "C:\\VS", "C:\\VS\\vcvars64.bat"⟩
    (by decide) rfl rfl (by rfl) rfl rfl rfl

/-- Claim C4 counterexample: with two wheels in dist, archive_wheel does not
refuse — it silently archives the first file of the listing and reports
success. -/
theorem archive_wheel_two_wheels_picks_first :
    archive_wheel
        ["deepspeed-0.15.2-cp310-win_amd64.whl", "deepspeed-0.15.2-cp311-win_amd64.whl"]
      = ArchiveResult.archived "deepspeed-0.15.2-cp310-win_amd64.whl" :=
  rfl

/-- Claim C4 (amended): for any dist listing with more than one artifact
file, archive_wheel performs no multiplicity check: it archives the head of
the listing (wheel_files[0]) and proceeds. -/
theorem archive_wheel_archives_head (w1 w2 : String) (rest : List String) :
    archive_wheel (w1 :: w2 :: rest) = ArchiveResult.archived w1 :=
  rfl

/-- Claim C5 counterexample: with two top-level directories the step does
not dissolve the index-zero entry "Aaa" — it dissolves the fixed-name
directory DeepSpeed-0.15.2 and leaves "Aaa" intact; and with no matching
directory at all it raises (none) instead of silently using entry zero. -/
theorem extract_uses_fixed_name_not_index_zero :
    extractStep "0.15.2"
        ⟨[("Aaa", Entry.dir [("keep.txt", Entry.file)]),
          ("DeepSpeed-0.15.2", Entry.dir [("setup.py", Entry.file)])], true⟩
      = some ⟨[("Aaa", Entry.dir [("keep.txt", Entry.file)]), ("setup.py", Entry.file)], false⟩
    ∧ extractStep "0.15.2" ⟨[("README.md", Entry.file)], true⟩ = none :=
  ⟨rfl, rfl⟩

/-- Claim C5 (amended): the extraction step selects only the fixed name
DeepSpeed-version; whenever no top-level directory carries that exact name
the step fails (os.listdir raises) — it never falls back to the entry at
index zero of the listing. -/
theorem extract_fails_without_fixed_name (version : String) (s : PostUnpackState)
    (h : ∀ p ∈ s.entries, p.1 = "DeepSpeed-" ++ version → p.2.isDir = false) :
    extractStep version s = none := by
  cases hfind : s.entries.find? (fun e => e.1 == ("DeepSpeed-" ++ version)) with
  | none => simp [extractStep, hfind]
  | some e =>
      obtain ⟨n, ent⟩ := e
      have hp := List.find?_some hfind
      simp only [beq_iff_eq] at hp
      have hd := h ⟨n, ent⟩ (List.mem_of_find?_eq_some hfind) hp
      cases ent with
      | file => simp [extractStep, hfind]
      | dir children => simp [Entry.isDir] at hd

/-- Witness for extract_fails_without_fixed_name: a workspace whose only
directory is not named DeepSpeed-0.16.0. -/
theorem extract_fails_without_fixed_name_concrete :
    extractStep "0.16.0"
        ⟨[("docs", Entry.dir []), ("README.md", Entry.file)], true⟩ = none :=
  extract_fails_without_fixed_name "0.16.0"
    ⟨[("docs", Entry.dir []), ("README.md", Entry.file)], true⟩ (by decide)

/-- Claim C6: find_vs_installation returns exactly the first candidate, in
the fixed priority order (well-known install roots, then registry keys),
whose environment-initialization script exists — and returns NotFound
(none) precisely when no candidate yields a profile, raising nothing. -/
theorem find_vs_installation_first_match (env : SystemEnv) :
    find_vs_installation env = vsCandidates.findSome? (candidateProfile env)
    ∧ (find_vs_installation env = none
        ↔ ∀ c ∈ vsCandidates, candidateProfile env c = none) := by
  have h1 : find_vs_installation env = vsCandidates.findSome? (candidateProfile env) := by
    unfold find_vs_installation vsCandidates
    rw [List.findSome?_append, ← findVsInDefaults_eq_findSome, ← findVsInRegistry_eq_findSome]
    cases findVsInDefaults env default_vs_paths <;> rfl
  refine ⟨h1, ?_⟩
  rw [h1]
  exact List.findSome?_eq_none_iff

/-- Claim C7: check_prerequisites performs the toolchain, toolkit and each
package check on every input without short-circuiting — all their findings
are in the report — its returned flag is the conjunction of every finding,
and with the compute toolkit directory absent it still records that finding,
reports allSatisfied = false, and completes the other checks. -/
theorem check_prerequisites_no_short_circuit (env : PrereqEnv) :
    Finding.mk "VisualStudio" (find_vs_installation env.sys).isSome
        ∈ (check_prerequisites env).findings
    ∧ Finding.mk "CUDA" env.cudaDirExists ∈ (check_prerequisites env).findings
    ∧ Finding.mk "torch" env.torchInstalled ∈ (check_prerequisites env).findings
    ∧ packageFinding "ninja" env.ninjaInstalled env.pipInstallNinjaOk
        ∈ (check_prerequisites env).findings
    ∧ packageFinding "psutil" env.psutilInstalled env.pipInstallPsutilOk
        ∈ (check_prerequisites env).findings
    ∧ (check_prerequisites env).allSatisfied
        = (check_prerequisites env).findings.all (fun f => f.satisfied)
    ∧ (env.cudaDirExists = false →
        Finding.mk "CUDA" false ∈ (check_prerequisites env).findings
        ∧ (check_prerequisites env).allSatisfied = false) := by
  cases hc : env.cudaDirExists <;>
    simp [check_prerequisites, hc]

/-- The concrete environment for the claim C7 scenario: no toolkit directory
on disk, everything else present. -/
def envPrereqC7 : PrereqEnv :=
  ⟨⟨fun _ => true, fun _ => none, fun s => s⟩, false, false, true, true, true, true, true⟩

/-- Witness for check_prerequisites_no_short_circuit: with the toolkit
directory absent the report carries the unsatisfied CUDA finding and
allSatisfied is false. -/
theorem check_prerequisites_cuda_missing_concrete :
    Finding.mk "CUDA" false ∈ (check_prerequisites envPrereqC7).findings
    ∧ (check_prerequisites envPrereqC7).allSatisfied = false :=
  (check_prerequisites_no_short_circuit envPrereqC7).2.2.2.2.2.2 rfl

lemma any_const_false {α : Type} (l : List α) : (l.any (fun _ => false)) = false := by
  induction l with
  | nil => rfl
  | cons h t ih => simp [List.any, ih]

/-- Claim C8: after unpacking a well-formed archive — the fixed download URL
yields exactly one top-level directory, DeepSpeed-version — the extraction
step leaves the workspace root holding exactly that directory's contents,
with the archive file removed and the emptied directory gone. -/
theorem fetch_extract_roundtrip (version : String) (children : List (String × Entry)) :
    extractStep version ⟨[("DeepSpeed-" ++ version, Entry.dir children)], true⟩
      = some ⟨children, false⟩ := by
  simp [extractStep, List.find?, any_const_false]

/-- Claim C9: whenever one manage_build_directory call succeeds it leaves
the archive directory present and the workspace directory empty, and an
immediately repeated call succeeds with the identical state: the reset is
idempotent. -/
theorem manage_build_directory_idempotent (s r : DirState)
    (h : manage_build_directory s = some r) :
    r = ⟨true, some []⟩ ∧ manage_build_directory r = some r := by
  rw [manage_build_directory_resets] at h
  have h2 : (⟨true, some []⟩ : DirState) = r := Option.some.inj h
  subst h2
  exact ⟨rfl, manage_build_directory_resets _⟩

/-- Witness for manage_build_directory_idempotent starting from a state with
neither directory present. -/
theorem manage_build_directory_idempotent_concrete :
    (⟨true, some []⟩ : DirState) = ⟨true, some []⟩
    ∧ manage_build_directory ⟨true, some []⟩ = some ⟨true, some []⟩ :=
  manage_build_directory_idempotent ⟨false, none⟩ ⟨true, some []⟩ rfl

/-- Claim C10: invoking either pipeline entry point with an empty
packageVersion reports the version error and returns before any stage runs,
leaving the workspace and archive directories exactly as they were. -/
theorem empty_version_no_pipeline (w : BuildWorld) (s : DirState) :
    build_only "" w s = ⟨EntryOutcome.versionError, s, []⟩
    ∧ start_installation "" w s = ⟨EntryOutcome.versionError, s, []⟩ :=
  ⟨rfl, rfl⟩
